import Mathlib

/-!
Shallow embedding of the per-pixel image transformations of the two
scripts `process_logos.py` (namespace `V1`) and `process_logos_fixed.py`
(namespace `Fixed`), together with theorems about them.

Images are modelled in RGBA mode (both scripts call `img.convert("RGBA")`
before touching pixels): a width, a height, and a row-major list of RGBA
pixels, as produced by PIL's `getdata`.  Both scripts transform each pixel
by a value depending only on that pixel (v1 builds a new list with
`getdata`/`putdata`; the fixed script writes `pixels[x, y]` from the value
just read at the same coordinate), so image-level transforms are embedded
as `Image.map` of a per-pixel function.
-/

/-- An RGBA pixel; channels are 8-bit values 0–255 stored as `Nat`. -/
structure Pixel where
  r : Nat
  g : Nat
  b : Nat
  a : Nat
deriving Repr, DecidableEq, Inhabited

/-- An image in RGBA mode: dimensions plus row-major pixel data. -/
structure Image where
  width : Nat
  height : Nat
  data : List Pixel
deriving Repr, DecidableEq, Inhabited

/-- Apply `f` to every pixel, keeping the dimensions. -/
def Image.map (f : Pixel → Pixel) (img : Image) : Image :=
  ⟨img.width, img.height, img.data.map f⟩

/-- The pixel at column `x`, row `y` (row-major indexing). -/
def Image.pixelAt (img : Image) (x y : Nat) : Pixel :=
  img.data.getD (y * img.width + x) default

/-- PIL-style `img.crop((left, top, right, bottom))`: the rectangle of
columns `[left, right)` and rows `[top, bottom)`. -/
def Image.crop (img : Image) (left top right bottom : Nat) : Image :=
  ⟨right - left, bottom - top,
    ((List.range (bottom - top)).map (fun y =>
      (List.range (right - left)).map (fun x =>
        img.pixelAt (left + x) (top + y)))).flatten⟩

namespace V1

/-- `ORANGE_COLOR = (255, 149, 0)`, i.e. #FF9500, from `process_logos.py`. -/
def ORANGE_COLOR : Nat × Nat × Nat := (255, 149, 0)

/-- `PURPLE_COLOR = (106, 0, 255)`, i.e. #6A00FF, from `process_logos.py`. -/
def PURPLE_COLOR : Nat × Nat × Nat := (106, 0, 255)

/-- Squared Euclidean distance between two RGB colors.  The source's
`color_distance` returns the square root of this sum; since both sides of
every comparison in the program are nonnegative and `x < t ↔ x ^ 2 < t ^ 2`
there, comparisons of the distance against a tolerance are embedded as
comparisons of this squared distance against the squared tolerance. -/
def color_distance_sq (c1 c2 : Nat × Nat × Nat) : Int :=
  ((c1.1 : Int) - (c2.1 : Int)) ^ 2 + ((c1.2.1 : Int) - (c2.2.1 : Int)) ^ 2 +
    ((c1.2.2 : Int) - (c2.2.2 : Int)) ^ 2

/-- One pixel of `remove_background` (`process_logos.py`, lines 24–41). -/
def remove_background_pixel (bg_threshold : Nat) (p : Pixel) : Pixel :=
  if p.r > bg_threshold ∧ p.g > bg_threshold ∧ p.b > bg_threshold then ⟨255, 255, 255, 0⟩
  else if p.r < 20 ∧ p.g < 20 ∧ p.b < 20 then ⟨0, 0, 0, 0⟩
  else p

/-- `remove_background` (`process_logos.py`, lines 24–41). -/
def remove_background (img : Image) (bg_threshold : Nat := 240) : Image :=
  img.map (remove_background_pixel bg_threshold)

/-- One pixel of v1 `convert_orange_to_purple` (`process_logos.py`,
lines 43–60): if `color_distance((r, g, b), ORANGE_COLOR) < tolerance`,
replace with purple keeping alpha. -/
def convert_orange_to_purple_pixel (tolerance : Nat) (p : Pixel) : Pixel :=
  if color_distance_sq (p.r, p.g, p.b) ORANGE_COLOR < (tolerance : Int) ^ 2 then
    ⟨PURPLE_COLOR.1, PURPLE_COLOR.2.1, PURPLE_COLOR.2.2, p.a⟩
  else p

/-- v1 `convert_orange_to_purple` (`process_logos.py`, lines 43–60). -/
def convert_orange_to_purple (img : Image) (tolerance : Nat := 50) : Image :=
  img.map (convert_orange_to_purple_pixel tolerance)

/-- The side of the square extracted from a reference sheet:
`icon_size = min(width // 3, height // 2)`. -/
def icon_size (width height : Nat) : Nat := min (width / 3) (height / 2)

/-- The image-transformation part of `process_single_icon`
(`process_logos.py`, lines 62–74): background removal, then optional
orange-to-purple conversion (loading and saving are I/O glue). -/
def process_single_icon (convert_to_purple : Bool) (img : Image) : Image :=
  let i1 := remove_background img
  if convert_to_purple then convert_orange_to_purple i1 else i1

/-- The image-transformation part of `process_reference_sheet`
(`process_logos.py`, lines 76–102): background removal, optional
conversion, then cropping the square `(0, 0, icon_size, icon_size)`. -/
def process_reference_sheet (convert_to_purple : Bool) (img : Image) : Image :=
  let i1 := remove_background img
  let i2 := if convert_to_purple then convert_orange_to_purple i1 else i1
  let s := icon_size i2.width i2.height
  i2.crop 0 0 s s

end V1

namespace Fixed

/-- `ORANGE_BASE = (255, 149, 0)` from `process_logos_fixed.py`. -/
def ORANGE_BASE : Nat × Nat × Nat := (255, 149, 0)

/-- `PURPLE_TARGET = (106, 0, 255)` from `process_logos_fixed.py`. -/
def PURPLE_TARGET : Nat × Nat × Nat := (106, 0, 255)

/-- `is_orange_tone` (`process_logos_fixed.py`, lines 20–24).  The
`tolerance` parameter is unused in the source as well. -/
def is_orange_tone (r g b : Nat) (tolerance : Nat := 80) : Bool :=
  decide (r > 150 ∧ g > 50 ∧ b < 150 ∧ r > g ∧ g > b)

/-- One pixel of the fixed `convert_orange_to_purple`
(`process_logos_fixed.py`, lines 26–64).  The Python computes
`int(c * ((r + g + b) / 3) / 255.0)` in floating point for
`c ∈ {106, 0, 255}`; for every channel sum `s = r + g + b ≤ 765` that
float computation yields exactly the integer floor `c * s / 765`, which is
the form embedded here. -/
def convert_pixel (p : Pixel) : Pixel :=
  if p.a < 10 then p
  else if p.r < 30 ∧ p.g < 30 ∧ p.b < 30 then p
  else if p.r > 200 ∧ p.g > 200 ∧ p.b > 200 then p
  else if p.b > p.r ∧ p.b > p.g then p
  else if is_orange_tone p.r p.g p.b then
    ⟨PURPLE_TARGET.1 * (p.r + p.g + p.b) / 765,
     PURPLE_TARGET.2.1 * (p.r + p.g + p.b) / 765,
     PURPLE_TARGET.2.2 * (p.r + p.g + p.b) / 765, p.a⟩
  else p

/-- The fixed `convert_orange_to_purple` (`process_logos_fixed.py`,
lines 26–64). -/
def convert_orange_to_purple (img : Image) : Image :=
  img.map convert_pixel

/-- One pixel of `remove_bg_smart` (`process_logos_fixed.py`,
lines 66–83); the dark threshold is 15 here, against 20 in v1. -/
def remove_bg_smart_pixel (bg_threshold : Nat) (p : Pixel) : Pixel :=
  if p.r > bg_threshold ∧ p.g > bg_threshold ∧ p.b > bg_threshold then ⟨255, 255, 255, 0⟩
  else if p.r < 15 ∧ p.g < 15 ∧ p.b < 15 then ⟨0, 0, 0, 0⟩
  else p

/-- `remove_bg_smart` (`process_logos_fixed.py`, lines 66–83). -/
def remove_bg_smart (img : Image) (bg_threshold : Nat := 240) : Image :=
  img.map (remove_bg_smart_pixel bg_threshold)

/-- The image-transformation part of `process_logo`
(`process_logos_fixed.py`, lines 85–102): optional background removal,
then optional conversion. -/
def process_logo (convert_to_purple remove_bg : Bool) (img : Image) : Image :=
  let i1 := if remove_bg then remove_bg_smart img else img
  if convert_to_purple then convert_orange_to_purple i1 else i1

end Fixed

/-- Sample one-pixel image used to instantiate universally quantified
theorems at concrete inputs. -/
def imgA : Image := ⟨1, 1, [⟨1, 2, 3, 4⟩]⟩

/-- Sample two-pixel image agreeing with `imgA` at index 0. -/
def imgB : Image := ⟨1, 2, [⟨1, 2, 3, 4⟩, ⟨9, 9, 9, 9⟩]⟩

/-- `getD` commutes with `map` at in-range indices, for any defaults. -/
theorem getD_map_of_lt {α β : Type} (f : α → β) (l : List α) (i : Nat)
    (d : α) (e : β) (h : i < l.length) :
    (l.map f).getD i e = f (l.getD i d) := by
  rw [List.getD_eq_getElem _ _ (by simpa using h), List.getD_eq_getElem _ _ h,
    List.getElem_map]

/-- Floor of the scaled-brightness channel value: the exact rational
`c * ((s / 3) / 255)` has floor `c * s / 765` in natural division. -/
theorem floor_channel_scale (c s : Nat) :
    ⌊((c : ℚ) * (((s : ℚ)) / 3) / 255)⌋₊ = c * s / 765 := by
  have h : ((c : ℚ)) * (((s : ℚ)) / 3) / 255 = ((c * s : Nat) : ℚ) / ((765 : Nat) : ℚ) := by
    push_cast
    ring
  rw [h, Nat.floor_div_nat, Nat.floor_natCast]

/-- C1: in the fixed version, every pixel that passes the transparency,
darkness, lightness and blue-dominance guards and satisfies
`is_orange_tone` is remapped to the purple target (106, 0, 255) scaled
channel-wise by the pixel's original brightness `(r + g + b) / 3` divided
by 255 and truncated to an integer, keeping the alpha value. -/
theorem fixed_remap_scales_purple_by_brightness (p : Pixel)
    (ht : ¬ p.a < 10)
    (hd : ¬ (p.r < 30 ∧ p.g < 30 ∧ p.b < 30))
    (hl : ¬ (p.r > 200 ∧ p.g > 200 ∧ p.b > 200))
    (hb : ¬ (p.b > p.r ∧ p.b > p.g))
    (ho : Fixed.is_orange_tone p.r p.g p.b = true) :
    Fixed.convert_pixel p =
      ⟨⌊((106 : ℚ) * (((p.r + p.g + p.b : Nat) : ℚ) / 3) / 255)⌋₊,
       ⌊((0 : ℚ) * (((p.r + p.g + p.b : Nat) : ℚ) / 3) / 255)⌋₊,
       ⌊((255 : ℚ) * (((p.r + p.g + p.b : Nat) : ℚ) / 3) / 255)⌋₊,
       p.a⟩ := by
  have h106 := floor_channel_scale 106 (p.r + p.g + p.b)
  have h0 := floor_channel_scale 0 (p.r + p.g + p.b)
  have h255 := floor_channel_scale 255 (p.r + p.g + p.b)
  simp only [Nat.cast_ofNat, Nat.cast_zero] at h106 h0 h255
  rw [Fixed.convert_pixel, if_neg ht, if_neg hd, if_neg hl, if_neg hb, if_pos ho]
  rw [Pixel.mk.injEq]
  refine ⟨?_, ?_, ?_, rfl⟩
  · rw [h106]; rfl
  · rw [h0]; rfl
  · rw [h255]; rfl

/-- Witness for C1 at the concrete pixel (200, 100, 0, 255). -/
theorem fixed_remap_scales_purple_by_brightness_witness :
    Fixed.convert_pixel ⟨200, 100, 0, 255⟩ =
      ⟨⌊((106 : ℚ) * (((200 + 100 + 0 : Nat) : ℚ) / 3) / 255)⌋₊,
       ⌊((0 : ℚ) * (((200 + 100 + 0 : Nat) : ℚ) / 3) / 255)⌋₊,
       ⌊((255 : ℚ) * (((200 + 100 + 0 : Nat) : ℚ) / 3) / 255)⌋₊,
       255⟩ ∧
    Fixed.convert_pixel ⟨200, 100, 0, 255⟩ = ⟨41, 0, 100, 255⟩ :=
  ⟨fixed_remap_scales_purple_by_brightness ⟨200, 100, 0, 255⟩
      (by decide) (by decide) (by decide) (by decide) (by decide),
    by decide⟩

/-- C2 counterexample: the pixel (200, 100, 0, 255) is remapped by the
fixed version's conversion (to (41, 0, 100, 255)), yet the output
brightness (mean of R, G, B) is 47, not the input brightness 100: the
remap is not brightness-preserving. -/
theorem fixed_remap_brightness_counterexample :
    Fixed.convert_pixel ⟨200, 100, 0, 255⟩ ≠ ⟨200, 100, 0, 255⟩ ∧
    Fixed.convert_pixel ⟨200, 100, 0, 255⟩ = ⟨41, 0, 100, 255⟩ ∧
    ¬ (((41 : ℚ) + 0 + 100) / 3 = ((200 : ℚ) + 100 + 0) / 3) := by
  refine ⟨by decide, by decide, by norm_num⟩

/-- C2 amended: the fixed remap scales brightness down rather than
preserving it; for every remapped pixel the output brightness (channel
sum, hence also the mean) is strictly below the input brightness, since
the purple target's channels sum to 361 < 3 · 255. -/
theorem fixed_remap_brightness_decreases (p : Pixel)
    (ht : ¬ p.a < 10)
    (hd : ¬ (p.r < 30 ∧ p.g < 30 ∧ p.b < 30))
    (hl : ¬ (p.r > 200 ∧ p.g > 200 ∧ p.b > 200))
    (hb : ¬ (p.b > p.r ∧ p.b > p.g))
    (ho : Fixed.is_orange_tone p.r p.g p.b = true) :
    (Fixed.convert_pixel p).r + (Fixed.convert_pixel p).g + (Fixed.convert_pixel p).b
      < p.r + p.g + p.b := by
  have hr : 150 < p.r := by
    have := of_decide_eq_true ho
    exact this.1
  rw [Fixed.convert_pixel, if_neg ht, if_neg hd, if_neg hl, if_neg hb, if_pos ho]
  show Fixed.PURPLE_TARGET.1 * (p.r + p.g + p.b) / 765 +
      Fixed.PURPLE_TARGET.2.1 * (p.r + p.g + p.b) / 765 +
      Fixed.PURPLE_TARGET.2.2 * (p.r + p.g + p.b) / 765 < p.r + p.g + p.b
  show 106 * (p.r + p.g + p.b) / 765 + 0 * (p.r + p.g + p.b) / 765 +
      255 * (p.r + p.g + p.b) / 765 < p.r + p.g + p.b
  omega

/-- Witness for the amended C2 at the concrete pixel (200, 100, 0, 255):
the output channel sum 141 is below the input channel sum 300. -/
theorem fixed_remap_brightness_decreases_witness :
    (Fixed.convert_pixel ⟨200, 100, 0, 255⟩).r + (Fixed.convert_pixel ⟨200, 100, 0, 255⟩).g
      + (Fixed.convert_pixel ⟨200, 100, 0, 255⟩).b < 200 + 100 + 0 :=
  fixed_remap_brightness_decreases ⟨200, 100, 0, 255⟩
    (by decide) (by decide) (by decide) (by decide) (by decide)

/-- C3: the v1 conversion replaces a pixel's RGB with exactly
(106, 0, 255), keeping alpha, when the Euclidean RGB distance to orange
(255, 149, 0) is strictly below the tolerance 50 (equivalently, the
squared distance is below 2500), and returns the pixel unchanged
otherwise. -/
theorem v1_convert_pixel_spec (p : Pixel) :
    (V1.color_distance_sq (p.r, p.g, p.b) V1.ORANGE_COLOR < 2500 →
      V1.convert_orange_to_purple_pixel 50 p = ⟨106, 0, 255, p.a⟩) ∧
    (¬ V1.color_distance_sq (p.r, p.g, p.b) V1.ORANGE_COLOR < 2500 →
      V1.convert_orange_to_purple_pixel 50 p = p) := by
  have he : ((50 : Nat) : Int) ^ 2 = 2500 := by norm_num
  constructor
  · intro h
    rw [V1.convert_orange_to_purple_pixel, he, if_pos h]
    rfl
  · intro h
    rw [V1.convert_orange_to_purple_pixel, he, if_neg h]

/-- Witness for C3: the exact-orange pixel (255, 149, 0, 200) becomes
(106, 0, 255, 200), and the far-away pixel (0, 0, 255, 7) is unchanged. -/
theorem v1_convert_pixel_spec_witness :
    V1.convert_orange_to_purple_pixel 50 ⟨255, 149, 0, 200⟩ = ⟨106, 0, 255, 200⟩ ∧
    V1.convert_orange_to_purple_pixel 50 ⟨0, 0, 255, 7⟩ = ⟨0, 0, 255, 7⟩ :=
  ⟨(v1_convert_pixel_spec ⟨255, 149, 0, 200⟩).1 (by decide),
   (v1_convert_pixel_spec ⟨0, 0, 255, 7⟩).2 (by decide)⟩

/-- C4 counterexample: the pixel (250, 250, 230, 255) has mean brightness
730 / 3 > 240, yet both background-removal functions leave it fully opaque
and unchanged: the thresholds are tested per channel, not on the mean
brightness. -/
theorem remove_background_brightness_counterexample :
    ((250 : ℚ) + 250 + 230) / 3 > 240 ∧
    V1.remove_background_pixel 240 ⟨250, 250, 230, 255⟩ = ⟨250, 250, 230, 255⟩ ∧
    Fixed.remove_bg_smart_pixel 240 ⟨250, 250, 230, 255⟩ = ⟨250, 250, 230, 255⟩ ∧
    (V1.remove_background_pixel 240 ⟨250, 250, 230, 255⟩).a ≠ 0 := by
  refine ⟨by norm_num, by decide, by decide, by decide⟩

/-- C4 amended: background removal zeroes the alpha exactly when all
three of R, G, B are above 240, or all three are below 20 (v1) / 15
(fixed version); every pixel in neither range is returned with its RGBA
values unchanged. -/
theorem remove_background_alpha_spec (p : Pixel) :
    ((p.r > 240 ∧ p.g > 240 ∧ p.b > 240) ∨ (p.r < 20 ∧ p.g < 20 ∧ p.b < 20) →
      (V1.remove_background_pixel 240 p).a = 0) ∧
    (¬ ((p.r > 240 ∧ p.g > 240 ∧ p.b > 240) ∨ (p.r < 20 ∧ p.g < 20 ∧ p.b < 20)) →
      V1.remove_background_pixel 240 p = p) ∧
    ((p.r > 240 ∧ p.g > 240 ∧ p.b > 240) ∨ (p.r < 15 ∧ p.g < 15 ∧ p.b < 15) →
      (Fixed.remove_bg_smart_pixel 240 p).a = 0) ∧
    (¬ ((p.r > 240 ∧ p.g > 240 ∧ p.b > 240) ∨ (p.r < 15 ∧ p.g < 15 ∧ p.b < 15)) →
      Fixed.remove_bg_smart_pixel 240 p = p) := by
  unfold V1.remove_background_pixel Fixed.remove_bg_smart_pixel
  refine ⟨?_, ?_, ?_, ?_⟩ <;> intro h <;> split_ifs <;> simp_all

/-- Witness for the amended C4: a light pixel and a dark pixel are made
transparent by both versions, and a mid-tone pixel is unchanged by both. -/
theorem remove_background_alpha_spec_witness :
    (V1.remove_background_pixel 240 ⟨241, 241, 241, 77⟩).a = 0 ∧
    V1.remove_background_pixel 240 ⟨100, 100, 100, 42⟩ = ⟨100, 100, 100, 42⟩ ∧
    (Fixed.remove_bg_smart_pixel 240 ⟨10, 10, 10, 3⟩).a = 0 ∧
    Fixed.remove_bg_smart_pixel 240 ⟨100, 100, 100, 42⟩ = ⟨100, 100, 100, 42⟩ :=
  ⟨(remove_background_alpha_spec ⟨241, 241, 241, 77⟩).1 (Or.inl (by decide)),
   (remove_background_alpha_spec ⟨100, 100, 100, 42⟩).2.1 (by decide),
   (remove_background_alpha_spec ⟨10, 10, 10, 3⟩).2.2.1 (Or.inr (by decide)),
   (remove_background_alpha_spec ⟨100, 100, 100, 42⟩).2.2.2 (by decide)⟩

/-- C5: each driver applies the transformations in the fixed order:
background removal first, then (when enabled) the orange-to-purple remap
on the background-removed pixels, then (reference sheets only) the crop.
Each output pixel is the composition remap-after-background-removal of
the corresponding input pixel; the remap never runs before background
removal. -/
theorem pipeline_order (c : Bool) (img : Image) :
    V1.process_single_icon c img =
      Image.map (fun p => (if c then V1.convert_orange_to_purple_pixel 50 else id)
        (V1.remove_background_pixel 240 p)) img ∧
    V1.process_reference_sheet c img =
      (Image.map (fun p => (if c then V1.convert_orange_to_purple_pixel 50 else id)
        (V1.remove_background_pixel 240 p)) img).crop 0 0
        (V1.icon_size img.width img.height) (V1.icon_size img.width img.height) ∧
    Fixed.process_logo c true img =
      Image.map (fun p => (if c then Fixed.convert_pixel else id)
        (Fixed.remove_bg_smart_pixel 240 p)) img := by
  cases c <;>
    simp [V1.process_single_icon, V1.process_reference_sheet, Fixed.process_logo,
      V1.remove_background, V1.convert_orange_to_purple, Fixed.remove_bg_smart,
      Fixed.convert_orange_to_purple, Image.map, List.map_map, Function.comp_def]

/-- C6: the reference-sheet driver crops the square with top-left corner
(0, 0) and side `min(width // 3, height // 2)` of the processed image
(whose dimensions equal the input's), so the extracted square has that
side length and always lies within the bounds of the image. -/
theorem reference_sheet_crop_in_bounds (c : Bool) (img : Image) :
    (V1.process_reference_sheet c img).width = V1.icon_size img.width img.height ∧
    (V1.process_reference_sheet c img).height = V1.icon_size img.width img.height ∧
    V1.icon_size img.width img.height ≤ img.width ∧
    V1.icon_size img.width img.height ≤ img.height := by
  refine ⟨?_, ?_, ?_, ?_⟩
  · cases c <;>
      simp [V1.process_reference_sheet, V1.remove_background, V1.convert_orange_to_purple,
        Image.map, Image.crop]
  · cases c <;>
      simp [V1.process_reference_sheet, V1.remove_background, V1.convert_orange_to_purple,
        Image.map, Image.crop]
  · exact le_trans (min_le_left _ _) (Nat.div_le_self _ _)
  · exact le_trans (min_le_right _ _) (Nat.div_le_self _ _)

/-- Helper for C8: the v1 conversion never changes a pixel's alpha. -/
theorem v1_convert_pixel_alpha (t : Nat) (p : Pixel) :
    (V1.convert_orange_to_purple_pixel t p).a = p.a := by
  unfold V1.convert_orange_to_purple_pixel
  split_ifs <;> rfl

/-- Helper for C8: the fixed conversion never changes a pixel's alpha. -/
theorem fixed_convert_pixel_alpha (p : Pixel) :
    (Fixed.convert_pixel p).a = p.a := by
  unfold Fixed.convert_pixel
  split_ifs <;> rfl

/-- C7: every per-pixel transformation is a pure function of the pixel's
RGBA values: whenever two images carry equal pixels at an in-range index,
the transformed images carry equal pixels at that index, for background
removal and the orange-to-purple remap in both versions. -/
theorem transforms_are_per_pixel_pure (img1 img2 : Image) (i : Nat) (d : Pixel)
    (h1 : i < img1.data.length) (h2 : i < img2.data.length)
    (heq : img1.data.getD i d = img2.data.getD i d) :
    (V1.remove_background img1).data.getD i d =
      (V1.remove_background img2).data.getD i d ∧
    (V1.convert_orange_to_purple img1).data.getD i d =
      (V1.convert_orange_to_purple img2).data.getD i d ∧
    (Fixed.remove_bg_smart img1).data.getD i d =
      (Fixed.remove_bg_smart img2).data.getD i d ∧
    (Fixed.convert_orange_to_purple img1).data.getD i d =
      (Fixed.convert_orange_to_purple img2).data.getD i d := by
  refine ⟨?_, ?_, ?_, ?_⟩ <;>
    simp only [V1.remove_background, V1.convert_orange_to_purple,
      Fixed.remove_bg_smart, Fixed.convert_orange_to_purple, Image.map] <;>
    rw [getD_map_of_lt _ _ _ d _ h1, getD_map_of_lt _ _ _ d _ h2, heq]

/-- Witness for C7 on the concrete images `imgA` and `imgB`, which agree
at index 0. -/
theorem transforms_are_per_pixel_pure_witness :
    (V1.remove_background imgA).data.getD 0 default =
      (V1.remove_background imgB).data.getD 0 default ∧
    (V1.convert_orange_to_purple imgA).data.getD 0 default =
      (V1.convert_orange_to_purple imgB).data.getD 0 default ∧
    (Fixed.remove_bg_smart imgA).data.getD 0 default =
      (Fixed.remove_bg_smart imgB).data.getD 0 default ∧
    (Fixed.convert_orange_to_purple imgA).data.getD 0 default =
      (Fixed.convert_orange_to_purple imgB).data.getD 0 default :=
  transforms_are_per_pixel_pure imgA imgB 0 default
    (by decide) (by decide) (by decide)

/-- C8: neither version's conversion ever changes the alpha channel: at
every in-range index, the alpha of the output pixel equals the alpha of
the input pixel. -/
theorem convert_preserves_alpha (img : Image) (i : Nat) (d : Pixel)
    (h : i < img.data.length) :
    ((V1.convert_orange_to_purple img).data.getD i d).a = (img.data.getD i d).a ∧
    ((Fixed.convert_orange_to_purple img).data.getD i d).a = (img.data.getD i d).a := by
  constructor
  · simp only [V1.convert_orange_to_purple, Image.map]
    rw [getD_map_of_lt _ _ _ d _ h, v1_convert_pixel_alpha]
  · simp only [Fixed.convert_orange_to_purple, Image.map]
    rw [getD_map_of_lt _ _ _ d _ h, fixed_convert_pixel_alpha]

/-- Witness for C8 on the concrete image `imgA` at index 0. -/
theorem convert_preserves_alpha_witness :
    ((V1.convert_orange_to_purple imgA).data.getD 0 default).a =
      (imgA.data.getD 0 default).a ∧
    ((Fixed.convert_orange_to_purple imgA).data.getD 0 default).a =
      (imgA.data.getD 0 default).a :=
  convert_preserves_alpha imgA 0 default (by decide)

/-- C9: the fixed conversion returns unchanged every pixel with alpha
below 10, every very dark pixel (r, g, b all below 30), every very light
pixel (r, g, b all above 200), and every blue-dominant pixel (b strictly
greater than both r and g). -/
theorem fixed_convert_guards_unchanged (p : Pixel)
    (h : p.a < 10 ∨ (p.r < 30 ∧ p.g < 30 ∧ p.b < 30) ∨
      (p.r > 200 ∧ p.g > 200 ∧ p.b > 200) ∨ (p.b > p.r ∧ p.b > p.g)) :
    Fixed.convert_pixel p = p := by
  unfold Fixed.convert_pixel
  split_ifs with h1 h2 h3 h4 h5 <;> try rfl
  rcases h with h | h | h | h <;> exact absurd h (by assumption)

/-- Witness for C9: one concrete pixel for each of the four guards. -/
theorem fixed_convert_guards_unchanged_witness :
    Fixed.convert_pixel ⟨255, 149, 0, 5⟩ = ⟨255, 149, 0, 5⟩ ∧
    Fixed.convert_pixel ⟨10, 20, 29, 255⟩ = ⟨10, 20, 29, 255⟩ ∧
    Fixed.convert_pixel ⟨201, 201, 201, 255⟩ = ⟨201, 201, 201, 255⟩ ∧
    Fixed.convert_pixel ⟨10, 20, 200, 255⟩ = ⟨10, 20, 200, 255⟩ :=
  ⟨fixed_convert_guards_unchanged ⟨255, 149, 0, 5⟩ (Or.inl (by decide)),
   fixed_convert_guards_unchanged ⟨10, 20, 29, 255⟩ (Or.inr (Or.inl (by decide))),
   fixed_convert_guards_unchanged ⟨201, 201, 201, 255⟩ (Or.inr (Or.inr (Or.inl (by decide)))),
   fixed_convert_guards_unchanged ⟨10, 20, 200, 255⟩ (Or.inr (Or.inr (Or.inr (by decide))))⟩

/-- C10: background removal and the orange-to-purple conversion, in both
versions, preserve the image's width, height, and number of pixels. -/
theorem transforms_preserve_dimensions (img : Image) :
    (V1.remove_background img).width = img.width ∧
    (V1.remove_background img).height = img.height ∧
    (V1.remove_background img).data.length = img.data.length ∧
    (V1.convert_orange_to_purple img).width = img.width ∧
    (V1.convert_orange_to_purple img).height = img.height ∧
    (V1.convert_orange_to_purple img).data.length = img.data.length ∧
    (Fixed.remove_bg_smart img).width = img.width ∧
    (Fixed.remove_bg_smart img).height = img.height ∧
    (Fixed.remove_bg_smart img).data.length = img.data.length ∧
    (Fixed.convert_orange_to_purple img).width = img.width ∧
    (Fixed.convert_orange_to_purple img).height = img.height ∧
    (Fixed.convert_orange_to_purple img).data.length = img.data.length := by
  simp [V1.remove_background, V1.convert_orange_to_purple,
    Fixed.remove_bg_smart, Fixed.convert_orange_to_purple, Image.map]
